import Mathlib

/-! Verification of the bar-interval parsing and historical-bar
request/normalization logic of the halal-money repository: the timeframe
parser in src/shared/utils.py and the /stocks/bars handler duplicated in
src/backend/main.py and src/backend/api/alpaca_client.py. -/

/-- Unit of a bar interval, mirroring the vendor enumeration TimeFrameUnit
whose members are Minute, Hour, Day, Week, Month. -/
inductive TimeFrameUnit where
  | Minute
  | Hour
  | Day
  | Week
  | Month
deriving DecidableEq, Repr

/-- Interval of amount and unit, mirroring the object returned by
parse_timeframe. The vendor constructor TimeFrame(amount, unit) lives in the
external SDK, not in this repository; per the spec any further validation is
downstream (the data provider's responsibility), so construction is modelled
as plain pairing. -/
structure TimeFrame where
  amount : Nat
  unit : TimeFrameUnit
deriving DecidableEq, Repr

/-- Error raised by parse_timeframe, tagged with the offending input string:
either the regular expression did not match (the InvalidFormat branch) or the
unit-map lookup failed (the defensive InvalidUnit branch). -/
inductive TimeframeError where
  | invalidFormat (text : String)
  | invalidUnit (text : String)
deriving DecidableEq, Repr

/-- Message of the ValueError raised by parse_timeframe, as formatted in
src/shared/utils.py. -/
def TimeframeError.message : TimeframeError → String
  | .invalidFormat t =>
      "Invalid timeframe format: '" ++ t ++ "'. Expected format like '1Min', '1Day', etc."
  | .invalidUnit t => "Invalid timeframe unit in '" ++ t ++ "'"

/-- ASCII digit test, modelling the regular-expression class \d on ASCII
input. -/
def isAsciiDigit (c : Char) : Bool := 48 ≤ c.toNat && c.toNat ≤ 57

/-- Alternatives of the unit group of the pattern
(\d+)(Min|Hour|Day|Week|Month), in alternation order. -/
def unitAlternatives : List String := ["Min", "Hour", "Day", "Week", "Month"]

/-- Simulation of re.match r"(\d+)(Min|Hour|Day|Week|Month)" applied to s:
anchored at the start of the string, \d+ takes the maximal digit run (no
alternative begins with a digit, so backtracking into the digit run can never
succeed), then the first alternative that is a prefix of the remainder
matches. The end of the string is not anchored, so trailing characters after
the unit token are ignored, exactly as re.match does. Returns the two
captured groups. -/
def reMatch (s : String) : Option (List Char × String) :=
  let ds := s.data.takeWhile isAsciiDigit
  if ds.isEmpty then none
  else
    match unitAlternatives.find? (fun t => t.data.isPrefixOf (s.data.dropWhile isAsciiDigit)) with
    | some t => some (ds, t)
    | none => none

/-- Value of one ASCII digit character. -/
def digitToNat (c : Char) : Nat := c.toNat - 48

/-- Value of a big-endian ASCII digit string, modelling Python int() on the
captured digit group. -/
def digitsVal (ds : List Char) : Nat := Nat.ofDigits 10 ((ds.map digitToNat).reverse)

/-- Unit map of parse_timeframe, from captured unit token to enumeration
member. -/
def unitMap : List (String × TimeFrameUnit) :=
  [("Min", .Minute), ("Hour", .Hour), ("Day", .Day), ("Week", .Week), ("Month", .Month)]

/-- Embedding of parse_timeframe (src/shared/utils.py): match the pattern
against the input, raising InvalidFormat when it fails; convert the digit
group with int; look the unit group up in unit_map, raising the defensive
InvalidUnit when absent; return the interval. -/
def parse_timeframe (s : String) : Except TimeframeError TimeFrame :=
  match reMatch s with
  | none => .error (.invalidFormat s)
  | some (ds, unitStr) =>
    match List.lookup unitStr unitMap with
    | none => .error (.invalidUnit s)
    | some u => .ok ⟨digitsVal ds, u⟩

/-- Canonical token of a unit, as rendered by the vendor enumeration
values. -/
def unitString : TimeFrameUnit → String
  | .Minute => "Min"
  | .Hour => "Hour"
  | .Day => "Day"
  | .Week => "Week"
  | .Month => "Month"

/-- Decimal digit characters of a natural number, most significant first. -/
def natChars (n : Nat) : List Char :=
  ((Nat.digits 10 n).map (fun d => Char.ofNat (48 + d))).reverse

/-- Modelled from the spec: canonical string form of an interval, the amount
followed immediately by the unit token. The repository contains no encoder of
its own; the vendor SDK renders intervals this way when building requests. -/
def TimeFrame.encode (tf : TimeFrame) : String :=
  String.mk (natChars tf.amount ++ (unitString tf.unit).data)

deriving instance DecidableEq for Except

/-- One row of the provider's tabular bar response. Only the value of the
"symbol" index level matters to the handler's reshaping loop; the OHLCV
payload is carried opaquely. -/
structure BarRow where
  symbol : String
  payload : Nat
deriving DecidableEq, Repr

/-- Tabular response of the provider (bars.df): its index-level names and its
rows. df.empty of the source is rows.isEmpty here. -/
structure DataFrame where
  indexNames : List String
  rows : List BarRow
deriving DecidableEq, Repr

/-- Emptiness test of the frame, as df.empty in the source. -/
def DataFrame.empty (df : DataFrame) : Bool := df.rows.isEmpty

/-- Arguments of the StockBarsRequest built by the handler and dispatched to
the provider in a single call. -/
structure StockBarsQuery where
  symbol_or_symbols : List String
  timeframe : TimeFrame
  start : Option Nat
  endTs : Option Nat
  limit : Option Int
  adjustment : String
  sort : String
  feed : Option String
deriving DecidableEq, Repr

/-- Outcome of one invocation of the /stocks/bars handler: a successful JSON
mapping from symbol to bar records, an HTTPException with status code and
detail, or an exception that escapes the handler uncaught (no surrounding
try/except), which the hosting framework turns into an undistinguished
internal failure. -/
inductive HandlerResult where
  | ok (output : List (String × List BarRow))
  | httpError (statusCode : Nat) (detail : String)
  | uncaughtValueError (msg : String)
deriving DecidableEq, Repr

/-- Discriminator of the BadRequest outcome (an HTTPException with status
code 400). -/
def HandlerResult.isBadRequest : HandlerResult → Bool
  | .httpError 400 _ => true
  | _ => false

/-- Splitting of a character list at commas, modelling str.split(","); the
empty string yields one empty piece. -/
def splitOnComma : List Char → List (List Char)
  | [] => [[]]
  | ',' :: rest => [] :: splitOnComma rest
  | c :: rest =>
    match splitOnComma rest with
    | [] => [[c]]
    | p :: ps => (c :: p) :: ps

/-- ASCII whitespace test, modelling the characters stripped by
str.strip(). -/
def isSpaceChar (c : Char) : Bool :=
  c = ' ' || c = '\t' || c = '\n' || c = '\x0b' || c = '\x0c' || c = '\r'

/-- Stripping of leading and trailing whitespace, modelling str.strip(). -/
def stripChars (l : List Char) : List Char :=
  ((l.dropWhile isSpaceChar).reverse.dropWhile isSpaceChar).reverse

/-- Symbol-list computation of the handler:
[s.strip().upper() for s in symbols.split(",") if s.strip()]. -/
def symbolList (symbols : String) : List String :=
  (((splitOnComma symbols.data).map stripChars).filter (fun p => p ≠ [])).map
    (fun p => String.mk (p.map Char.toUpper))

/-- Assignment output[k] = v on a Python dict modelled as an association list
preserving insertion order: an existing key keeps its position and gets the
new value, a new key is appended. -/
def dictSet : List (String × List BarRow) → String → List BarRow → List (String × List BarRow)
  | [], k, v => [(k, v)]
  | (k', v') :: rest, k, v =>
    if k' = k then (k', v) :: rest else (k', v') :: dictSet rest k v

/-- Lookup output[k] on the association-list dict. -/
def dictGet : List (String × List BarRow) → String → Option (List BarRow)
  | [], _ => none
  | (k', v') :: rest, k => if k' = k then some v' else dictGet rest k

/-- Key list of the association-list dict, in insertion order. -/
def dictKeys (d : List (String × List BarRow)) : List String := d.map Prod.fst

/-- Response-reshaping step of the handler: when the frame is non-empty, each
requested symbol is bound to the rows of the "symbol" index level equal to it
when that level exists, and to the whole frame otherwise; when the frame is
empty, each requested symbol is bound to an empty list. -/
def reshape (symbol_list : List String) (df : DataFrame) : List (String × List BarRow) :=
  if df.empty = false then
    symbol_list.foldl
      (fun output symbol =>
        dictSet output symbol
          (if "symbol" ∈ df.indexNames then df.rows.filter (fun r => r.symbol = symbol)
           else df.rows))
      []
  else
    symbol_list.foldl (fun output symbol => dictSet output symbol []) []

/-- Rows the reshaping step associates to one symbol, as a function of the
frame: empty frame gives the empty list, a frame with a "symbol" index level
gives the rows tagged with the symbol, a frame without one gives every
row. -/
def DataFrame.rowsFor (df : DataFrame) (symbol : String) : List BarRow :=
  if df.empty = false then
    if "symbol" ∈ df.indexNames then df.rows.filter (fun r => r.symbol = symbol)
    else df.rows
  else []

/-- Parsing of one optional timestamp query parameter, modelling
datetime.fromisoformat(x) if x else None with the stdlib parser abstracted as
the oracle isoParse (returning either a timestamp or the ValueError message).
A present malformed value makes the expression raise. -/
def parseOptionalTimestamp (isoParse : String → Except String Nat) :
    Option String → Except String (Option Nat)
  | none => .ok none
  | some s => if s = "" then .ok none else (isoParse s).map some

/-- Embedding of the /stocks/bars handler get_stock_bars, identical in
src/backend/main.py lines 84-140 and src/backend/api/alpaca_client.py lines
77-123. External collaborators are parameters: isoParse stands for
datetime.fromisoformat, provider for the request construction plus
data_client.get_stock_bars plus bars.df inside the second try/except (any
exception there is caught and re-raised as a 500 with the prefixed detail).
The timeframe is parsed first inside its own try/except (ValueError becomes a
400 with the error message); the start and end timestamps are parsed next
with no surrounding try/except, so a parse failure escapes the handler; the
symbol list is computed, one provider call is issued, and the response is
reshaped per symbol. -/
def get_stock_bars (isoParse : String → Except String Nat)
    (provider : StockBarsQuery → Except String DataFrame)
    (symbols timeframe : String) (limit : Option Int) (adjustment : String)
    (start endP : Option String) (sort : String) (feed : Option String) : HandlerResult :=
  match parse_timeframe timeframe with
  | .error e => .httpError 400 e.message
  | .ok tf_object =>
    match parseOptionalTimestamp isoParse start with
    | .error m => .uncaughtValueError m
    | .ok start_dt =>
      match parseOptionalTimestamp isoParse endP with
      | .error m => .uncaughtValueError m
      | .ok end_dt =>
        let symbol_list := symbolList symbols
        match provider ⟨symbol_list, tf_object, start_dt, end_dt, limit, adjustment, sort, feed⟩ with
        | .error m => .httpError 500 ("Alpaca SDK error: " ++ m)
        | .ok df => .ok (reshape symbol_list df)

/-- Matching as a prefix: the string decomposes as a non-empty digit run,
immediately followed by one of the enumerated unit tokens, followed by
arbitrary trailing characters. This is exactly the success condition of the
unanchored re.match in parse_timeframe. -/
def HasTimeframePattern (s : String) : Prop :=
  ∃ ds u rest, s.data = ds ++ (unitString u).data ++ rest ∧ ds ≠ [] ∧
    ∀ c ∈ ds, isAsciiDigit c = true

/-- Discriminator of the defensive InvalidUnit outcome of the parser. -/
def isInvalidUnitResult : Except TimeframeError TimeFrame → Bool
  | .error (.invalidUnit _) => true
  | _ => false

lemma takeWhile_append_of_forall {p : Char → Bool} {A : List Char} (B : List Char)
    (hA : ∀ a ∈ A, p a = true) : (A ++ B).takeWhile p = A ++ B.takeWhile p := by
  induction A with
  | nil => simp
  | cons a A ih =>
    have ha : p a = true := hA a (by simp)
    simp [List.takeWhile_cons, ha, ih (fun x hx => hA x (by simp [hx]))]

lemma dropWhile_append_of_forall {p : Char → Bool} {A : List Char} (B : List Char)
    (hA : ∀ a ∈ A, p a = true) : (A ++ B).dropWhile p = B.dropWhile p := by
  induction A with
  | nil => simp
  | cons a A ih =>
    have ha : p a = true := hA a (by simp)
    simp only [List.cons_append, List.dropWhile_cons, ha]
    exact ih (fun x hx => hA x (by simp [hx]))

lemma takeWhile_unit_append (u : TimeFrameUnit) (rest : List Char) :
    ((unitString u).data ++ rest).takeWhile isAsciiDigit = [] := by
  cases u <;> rfl

lemma dropWhile_unit_append (u : TimeFrameUnit) (rest : List Char) :
    ((unitString u).data ++ rest).dropWhile isAsciiDigit = (unitString u).data ++ rest := by
  cases u <;> rfl

lemma takeWhile_unit (u : TimeFrameUnit) :
    (unitString u).data.takeWhile isAsciiDigit = [] := by
  cases u <;> rfl

lemma dropWhile_unit (u : TimeFrameUnit) :
    (unitString u).data.dropWhile isAsciiDigit = (unitString u).data := by
  cases u <;> rfl

lemma digit_char_is_digit {d : Nat} (h : d < 10) :
    isAsciiDigit (Char.ofNat (48 + d)) = true := by
  interval_cases d <;> decide

lemma digit_char_val {d : Nat} (h : d < 10) : digitToNat (Char.ofNat (48 + d)) = d := by
  interval_cases d <;> decide

lemma natChars_digits (n : Nat) : ∀ c ∈ natChars n, isAsciiDigit c = true := by
  intro c hc
  simp only [natChars, List.mem_reverse, List.mem_map] at hc
  obtain ⟨d, hd, rfl⟩ := hc
  exact digit_char_is_digit (Nat.digits_lt_base (by norm_num) hd)

lemma natChars_ne_nil {n : Nat} (hn : n ≠ 0) : natChars n ≠ [] := by
  simp only [natChars, ne_eq, List.reverse_eq_nil_iff, List.map_eq_nil_iff]
  exact Nat.digits_ne_nil_iff_ne_zero.mpr hn

lemma digitsVal_natChars (n : Nat) : digitsVal (natChars n) = n := by
  unfold digitsVal natChars
  rw [List.map_reverse, List.reverse_reverse, List.map_map]
  have h : List.map (digitToNat ∘ fun d => Char.ofNat (48 + d)) (Nat.digits 10 n)
      = List.map id (Nat.digits 10 n) :=
    List.map_congr_left (fun d hd => by
      simp only [Function.comp_apply, id]
      exact digit_char_val (Nat.digits_lt_base (by norm_num) hd))
  rw [h, List.map_id]
  exact Nat.ofDigits_digits 10 n

lemma find?_unit_self (u : TimeFrameUnit) :
    unitAlternatives.find? (fun t => t.data.isPrefixOf (unitString u).data)
      = some (unitString u) := by
  cases u <;> rfl

lemma reMatch_encode {n : Nat} (hn : n ≠ 0) (u : TimeFrameUnit) :
    reMatch (TimeFrame.encode ⟨n, u⟩) = some (natChars n, unitString u) := by
  unfold reMatch TimeFrame.encode
  simp only [String.data]
  rw [takeWhile_append_of_forall _ (natChars_digits n), takeWhile_unit u, List.append_nil,
    dropWhile_append_of_forall _ (natChars_digits n), dropWhile_unit u]
  simp [List.isEmpty_eq_false.mpr (natChars_ne_nil hn), find?_unit_self u]

lemma lookup_unitString (u : TimeFrameUnit) :
    List.lookup (unitString u) unitMap = some u := by
  cases u <;> rfl

lemma parse_encode_ok {n : Nat} (hn : n ≠ 0) (u : TimeFrameUnit) :
    parse_timeframe (TimeFrame.encode ⟨n, u⟩) = .ok ⟨n, u⟩ := by
  simp [parse_timeframe, reMatch_encode hn u, lookup_unitString u, digitsVal_natChars n]


lemma reMatch_isSome_of_pattern {s : String} (h : HasTimeframePattern s) :
    reMatch s ≠ none := by
  obtain ⟨ds, u, rest, hs, hne, hdig⟩ := h
  unfold reMatch
  rw [hs, List.append_assoc, takeWhile_append_of_forall _ hdig, takeWhile_unit_append u rest,
    List.append_nil, dropWhile_append_of_forall _ hdig, dropWhile_unit_append u rest]
  simp only [List.isEmpty_eq_false.mpr hne]
  have hfind : (unitAlternatives.find?
      (fun t => t.data.isPrefixOf ((unitString u).data ++ rest))).isSome := by
    rw [List.find?_isSome]
    refine ⟨unitString u, ?_, ?_⟩
    · cases u <;> simp [unitAlternatives, unitString]
    · simp [List.isPrefixOf_iff_prefix]
  match hm : unitAlternatives.find?
      (fun t => t.data.isPrefixOf ((unitString u).data ++ rest)) with
  | some t => rw [hm]; simp
  | none => rw [hm] at hfind; simp at hfind

lemma mem_unitAlternatives {t : String} (h : t ∈ unitAlternatives) :
    ∃ u, unitString u = t := by
  simp only [unitAlternatives, List.mem_cons, List.mem_singleton] at h
  rcases h with rfl | rfl | rfl | rfl | rfl | h
  · exact ⟨.Minute, rfl⟩
  · exact ⟨.Hour, rfl⟩
  · exact ⟨.Day, rfl⟩
  · exact ⟨.Week, rfl⟩
  · exact ⟨.Month, rfl⟩
  · simp at h

lemma pattern_of_reMatch_some {s : String} {ds : List Char} {tok : String}
    (h : reMatch s = some (ds, tok)) :
    HasTimeframePattern s ∧ ds = s.data.takeWhile isAsciiDigit ∧ tok ∈ unitAlternatives := by
  unfold reMatch at h
  by_cases he : (s.data.takeWhile isAsciiDigit).isEmpty
  · simp [he] at h
  · simp only [he, if_false, Bool.false_eq_true] at h
    match hm : unitAlternatives.find?
        (fun t => t.data.isPrefixOf (s.data.dropWhile isAsciiDigit)) with
    | none => rw [hm] at h; simp at h
    | some t =>
      rw [hm] at h
      simp only [Option.some.injEq, Prod.mk.injEq] at h
      obtain ⟨hds, htok⟩ := h
      have htmem : t ∈ unitAlternatives := List.mem_of_find?_eq_some hm
      have hpref := List.find?_some hm
      simp only [List.isPrefixOf_iff_prefix] at hpref
      obtain ⟨u, hu⟩ := mem_unitAlternatives htmem
      obtain ⟨rest, hrest⟩ := hpref
      subst htok
      refine ⟨⟨s.data.takeWhile isAsciiDigit, u, rest, ?_, ?_, ?_⟩, hds.symm, htmem⟩
      · rw [hu, List.append_assoc, hrest, List.takeWhile_append_dropWhile]
      · intro hnil; rw [hnil] at he; simp at he
      · intro c hc; exact List.mem_takeWhile_imp hc

lemma lookup_of_reMatch_some {s : String} {ds : List Char} {tok : String}
    (h : reMatch s = some (ds, tok)) : ∃ u, List.lookup tok unitMap = some u := by
  obtain ⟨-, -, htmem⟩ := pattern_of_reMatch_some h
  obtain ⟨u, hu⟩ := mem_unitAlternatives htmem
  exact ⟨u, by rw [← hu, lookup_unitString]⟩

lemma parse_ok_of_reMatch_some {s : String} {ds : List Char} {tok : String}
    (h : reMatch s = some (ds, tok)) :
    ∃ u, parse_timeframe s = .ok ⟨digitsVal ds, u⟩ := by
  obtain ⟨u, hu⟩ := lookup_of_reMatch_some h
  exact ⟨u, by simp [parse_timeframe, h, hu]⟩

lemma parse_error_inv {s : String} {e : TimeframeError}
    (h : parse_timeframe s = .error e) :
    e = .invalidFormat s ∧ reMatch s = none := by
  match hm : reMatch s with
  | none =>
    unfold parse_timeframe at h
    rw [hm] at h
    exact ⟨(Except.error.injEq _ _).mp h.symm, rfl⟩
  | some (ds, tok) =>
    obtain ⟨u, hu⟩ := parse_ok_of_reMatch_some hm
    rw [hu] at h
    exact absurd h (by simp)

lemma parse_invalidFormat_iff {s : String} :
    parse_timeframe s = .error (.invalidFormat s) ↔ ¬ HasTimeframePattern s := by
  constructor
  · intro h hpat
    exact reMatch_isSome_of_pattern hpat (parse_error_inv h).2
  · intro hpat
    match hm : reMatch s with
    | none => unfold parse_timeframe; rw [hm]
    | some (ds, tok) =>
      exact absurd (pattern_of_reMatch_some hm).1 hpat

lemma dictGet_dictSet (d : List (String × List BarRow)) (k k' : String) (v : List BarRow) :
    dictGet (dictSet d k v) k' = if k' = k then some v else dictGet d k' := by
  induction d with
  | nil =>
    by_cases h : k' = k
    · subst h; simp [dictSet, dictGet]
    · simp [dictSet, dictGet, h, Ne.symm h]
  | cons a d ih =>
    obtain ⟨ka, va⟩ := a
    by_cases hak : ka = k
    · subst hak
      by_cases h : k' = ka
      · subst h; simp [dictSet, dictGet]
      · simp [dictSet, dictGet, h, Ne.symm h]
    · by_cases h : k' = ka
      · subst h
        simp [dictSet, dictGet, hak, Ne.symm hak]
      · simp [dictSet, dictGet, hak, Ne.symm h, h, ih]

lemma dictKeys_dictSet (d : List (String × List BarRow)) (k : String) (v : List BarRow) :
    dictKeys (dictSet d k v) =
      if k ∈ dictKeys d then dictKeys d else dictKeys d ++ [k] := by
  induction d with
  | nil => simp [dictSet, dictKeys]
  | cons a d ih =>
    obtain ⟨ka, va⟩ := a
    by_cases hak : ka = k
    · subst hak
      simp [dictSet, dictKeys]
    · have hka : ¬ k = ka := Ne.symm hak
      simp only [dictSet, if_neg hak, dictKeys, List.map_cons]
      simp only [dictKeys] at ih
      rw [ih]
      by_cases hmem : k ∈ List.map Prod.fst d <;> simp [hmem, hka]

lemma dictGet_isSome_iff_mem_keys (d : List (String × List BarRow)) (k : String) :
    (dictGet d k).isSome ↔ k ∈ dictKeys d := by
  induction d with
  | nil => simp [dictGet, dictKeys]
  | cons a d ih =>
    obtain ⟨ka, va⟩ := a
    by_cases h : k = ka
    · subst h; simp [dictGet, dictKeys]
    · simp [dictGet, dictKeys, h, ih, Ne.symm h]

lemma dictGet_foldl (g : String → List BarRow) (L : List String)
    (d : List (String × List BarRow)) (k : String) :
    dictGet (L.foldl (fun out s => dictSet out s (g s)) d) k
      = if k ∈ L then some (g k) else dictGet d k := by
  induction L generalizing d with
  | nil => simp
  | cons s L ih =>
    rw [List.foldl_cons, ih]
    by_cases hmem : k ∈ L
    · simp [hmem]
    · by_cases hk : k = s
      · subst hk
        simp [hmem, dictGet_dictSet]
      · simp [hmem, hk, dictGet_dictSet]

lemma mem_dictKeys_foldl (g : String → List BarRow) (L : List String)
    (d : List (String × List BarRow)) (k : String) :
    k ∈ dictKeys (L.foldl (fun out s => dictSet out s (g s)) d)
      ↔ k ∈ L ∨ k ∈ dictKeys d := by
  induction L generalizing d with
  | nil => simp
  | cons s L ih =>
    rw [List.foldl_cons, ih, dictKeys_dictSet]
    by_cases hmem : s ∈ dictKeys d
    · simp only [if_pos hmem, List.mem_cons]
      constructor
      · intro h
        rcases h with h | h
        · exact Or.inl (Or.inr h)
        · exact Or.inr h
      · intro h
        rcases h with h | h
        · rcases h with h | h
          · subst h; exact Or.inr hmem
          · exact Or.inl h
        · exact Or.inr h
    · simp only [if_neg hmem, List.mem_cons, List.mem_append, List.mem_singleton]
      tauto

lemma nodup_dictKeys_dictSet (d : List (String × List BarRow)) (k : String) (v : List BarRow)
    (h : (dictKeys d).Nodup) : (dictKeys (dictSet d k v)).Nodup := by
  rw [dictKeys_dictSet]
  by_cases hmem : k ∈ dictKeys d
  · simpa [hmem] using h
  · simp [hmem, List.nodup_append, h]

lemma nodup_dictKeys_foldl (g : String → List BarRow) (L : List String)
    (d : List (String × List BarRow)) (h : (dictKeys d).Nodup) :
    (dictKeys (L.foldl (fun out s => dictSet out s (g s)) d)).Nodup := by
  induction L generalizing d with
  | nil => exact h
  | cons s L ih => exact ih _ (nodup_dictKeys_dictSet d s (g s) h)

lemma reshape_eq_foldl (L : List String) (df : DataFrame) :
    reshape L df = L.foldl (fun out s => dictSet out s (df.rowsFor s)) [] := by
  by_cases h : df.empty = false
  · simp only [reshape, DataFrame.rowsFor, h, if_true]
  · have ht : df.empty = true := by revert h; cases df.empty <;> simp
    simp [reshape, DataFrame.rowsFor, ht]

lemma dictGet_reshape (L : List String) (df : DataFrame) (k : String) :
    dictGet (reshape L df) k = if k ∈ L then some (df.rowsFor k) else none := by
  rw [reshape_eq_foldl, dictGet_foldl]
  rfl

lemma mem_dictKeys_reshape (L : List String) (df : DataFrame) (k : String) :
    k ∈ dictKeys (reshape L df) ↔ k ∈ L := by
  rw [reshape_eq_foldl, mem_dictKeys_foldl]
  simp [dictKeys]

lemma nodup_dictKeys_reshape (L : List String) (df : DataFrame) :
    (dictKeys (reshape L df)).Nodup := by
  rw [reshape_eq_foldl]
  exact nodup_dictKeys_foldl _ _ _ (by simp [dictKeys])

lemma mem_rows_of_mem_rowsFor {df : DataFrame} {sym : String} {r : BarRow}
    (hr : r ∈ df.rowsFor sym) : r ∈ df.rows := by
  unfold DataFrame.rowsFor at hr
  by_cases h : df.empty = false
  · rw [if_pos h] at hr
    by_cases hl : "symbol" ∈ df.indexNames
    · rw [if_pos hl] at hr
      exact (List.mem_filter.mp hr).1
    · rw [if_neg hl] at hr
      exact hr
  · rw [if_neg h] at hr
    simp at hr

lemma tag_of_mem_rowsFor {df : DataFrame} {sym : String} {r : BarRow}
    (hr : r ∈ df.rowsFor sym) (hlev : "symbol" ∈ df.indexNames) : r.symbol = sym := by
  unfold DataFrame.rowsFor at hr
  by_cases h : df.empty = false
  · rw [if_pos h, if_pos hlev] at hr
    simpa using (List.mem_filter.mp hr).2
  · rw [if_neg h] at hr
    simp at hr

lemma rowsFor_of_no_symbol_level {df : DataFrame} (sym : String)
    (hlev : "symbol" ∉ df.indexNames) (hne : df.empty = false) :
    df.rowsFor sym = df.rows := by
  simp [DataFrame.rowsFor, hne, hlev]

lemma get_stock_bars_ok_eq (isoParse : String → Except String Nat)
    (provider : StockBarsQuery → Except String DataFrame)
    (symbols timeframe : String) (limit : Option Int) (adjustment : String)
    (start endP : Option String) (sort : String) (feed : Option String)
    (tf : TimeFrame) (sd ed : Option Nat) (df : DataFrame)
    (htf : parse_timeframe timeframe = .ok tf)
    (hs : parseOptionalTimestamp isoParse start = .ok sd)
    (he : parseOptionalTimestamp isoParse endP = .ok ed)
    (hprov : provider ⟨symbolList symbols, tf, sd, ed, limit, adjustment, sort, feed⟩ = .ok df) :
    get_stock_bars isoParse provider symbols timeframe limit adjustment start endP sort feed
      = .ok (reshape (symbolList symbols) df) := by
  simp [get_stock_bars, htf, hs, he, hprov]

/-- C2 (counterexample): the claim says parse_timeframe fails with
InvalidFormat on "15Minutes"; in fact the unanchored re.match accepts the
prefix "15Min" and the call returns Interval(15, Minute). -/
theorem parse_timeframe_trailing_counterexample :
    parse_timeframe "15Minutes" = .ok ⟨15, .Minute⟩ := by decide

/-- C2 (amended): parse_timeframe fails with InvalidFormat exactly for the
strings that do not BEGIN with a non-empty digit run immediately followed by
one of the unit tokens Min, Hour, Day, Week, Month (case-sensitive, no
separator); trailing characters after the unit token are ignored. In
particular "abc", "Min15" and "" fail with InvalidFormat, and no Interval is
then returned. -/
theorem parse_timeframe_invalid_format_characterization :
    (∀ s, parse_timeframe s = .error (.invalidFormat s) ↔ ¬ HasTimeframePattern s)
    ∧ parse_timeframe "abc" = .error (.invalidFormat "abc")
    ∧ parse_timeframe "Min15" = .error (.invalidFormat "Min15")
    ∧ parse_timeframe "" = .error (.invalidFormat "") :=
  ⟨fun _ => parse_invalidFormat_iff, by decide, by decide, by decide⟩

/-- C3: for every positive amount and every enumerated unit, parsing the
string formed of the amount followed by the unit token succeeds and returns
the interval with exactly that amount and unit; no upper bound on the amount
is enforced at this layer. -/
theorem parse_timeframe_valid_strings_ok (n : Nat) (u : TimeFrameUnit) (h : 1 ≤ n) :
    parse_timeframe (TimeFrame.encode ⟨n, u⟩) = .ok ⟨n, u⟩ :=
  parse_encode_ok (Nat.one_le_iff_ne_zero.mp h) u

/-- C3 witness: parse("15Min") = Interval(15, Minute). -/
theorem parse_timeframe_valid_strings_ok_witness :
    1 ≤ 15 ∧ parse_timeframe (TimeFrame.encode ⟨15, .Minute⟩) = .ok ⟨15, .Minute⟩ :=
  ⟨by decide, parse_timeframe_valid_strings_ok 15 .Minute (by decide)⟩

/-- C7: encoding an interval to its canonical string form and re-parsing
yields an equal interval, for every unit in the enumerated set and every
amount in the set 1, 2, 100. -/
theorem parse_timeframe_roundtrip_enumerated :
    ∀ u : TimeFrameUnit, ∀ n ∈ ([1, 2, 100] : List Nat),
      parse_timeframe (TimeFrame.encode ⟨n, u⟩) = .ok ⟨n, u⟩ := by
  intro u n hn
  simp only [List.mem_cons, List.mem_singleton, List.not_mem_nil, or_false] at hn
  rcases hn with rfl | rfl | rfl <;> exact parse_encode_ok (by decide) u

/-- C7 witness: the round trip at amount 100 and unit Month. -/
theorem parse_timeframe_roundtrip_enumerated_witness :
    (100 : Nat) ∈ ([1, 2, 100] : List Nat)
    ∧ parse_timeframe (TimeFrame.encode ⟨100, .Month⟩) = .ok ⟨100, .Month⟩ :=
  ⟨by decide, parse_timeframe_roundtrip_enumerated .Month 100 (by decide)⟩

/-- C8: the defensive InvalidUnit branch of parse_timeframe is unreachable:
no input string ever produces the InvalidUnit error, because every unit token
the pattern can capture is present in the unit map. -/
theorem parse_timeframe_invalid_unit_unreachable :
    ∀ s, isInvalidUnitResult (parse_timeframe s) = false := by
  intro s
  match hm : reMatch s with
  | none =>
    unfold parse_timeframe
    rw [hm]
    rfl
  | some (ds, tok) =>
    obtain ⟨u, hu⟩ := parse_ok_of_reMatch_some hm
    rw [hu]
    rfl

/-- C4 (counterexample): with a valid timeframe and a malformed start
timestamp, the handler does not return a BadRequest; the parse error escapes
it as an uncaught ValueError, because lines 103-104 of src/backend/main.py
(lines 94-95 of the duplicate) run outside any try/except. -/
theorem get_stock_bars_malformed_start_counterexample :
    get_stock_bars
      (fun s => .error ("Invalid isoformat string: '" ++ s ++ "'"))
      (fun _ => .ok ⟨["timestamp"], []⟩)
      "AAPL" "1Day" (some 1000) "raw" (some "not-a-date") none "asc" (some "sip")
      = .uncaughtValueError "Invalid isoformat string: 'not-a-date'"
    ∧ (get_stock_bars
      (fun s => .error ("Invalid isoformat string: '" ++ s ++ "'"))
      (fun _ => .ok ⟨["timestamp"], []⟩)
      "AAPL" "1Day" (some 1000) "raw" (some "not-a-date") none "asc" (some "sip")).isBadRequest
      = false := by
  constructor <;> decide

/-- C4 (amended): when the timeframe parses and a present, non-empty start
(or, with start parsed, end) value is one the timestamp parser rejects, the
handler neither catches the failure nor produces a BadRequest: the ValueError
propagates out of the handler as an undistinguished internal failure carrying
only the stdlib parse message. -/
theorem get_stock_bars_malformed_timestamp_uncaught
    (isoParse : String → Except String Nat)
    (provider : StockBarsQuery → Except String DataFrame)
    (symbols timeframe : String) (limit : Option Int) (adjustment : String)
    (start endP : Option String) (sort : String) (feed : Option String)
    (tf : TimeFrame) (sd : Option Nat) (s m : String)
    (htf : parse_timeframe timeframe = .ok tf)
    (h : (start = some s ∧ s ≠ "" ∧ isoParse s = .error m)
       ∨ (parseOptionalTimestamp isoParse start = .ok sd ∧ endP = some s ∧ s ≠ ""
            ∧ isoParse s = .error m)) :
    get_stock_bars isoParse provider symbols timeframe limit adjustment start endP sort feed
      = .uncaughtValueError m := by
  rcases h with ⟨rfl, hne, hiso⟩ | ⟨hsd, rfl, hne, hiso⟩
  · have hse : parseOptionalTimestamp isoParse (some s) = .error m := by
      simp [parseOptionalTimestamp, hne, hiso, Except.map]
    simp [get_stock_bars, htf, hse]
  · have hee : parseOptionalTimestamp isoParse (some s) = .error m := by
      simp [parseOptionalTimestamp, hne, hiso, Except.map]
    simp [get_stock_bars, htf, hsd, hee]

/-- C4 witness: concrete instance of the amended claim. -/
theorem get_stock_bars_malformed_timestamp_uncaught_witness :
    parse_timeframe "1Day" = .ok ⟨1, .Day⟩
    ∧ (some "x" = some "x" ∧ "x" ≠ ""
        ∧ (fun (_ : String) => (Except.error "boom" : Except String Nat)) "x" = .error "boom")
    ∧ get_stock_bars (fun _ => .error "boom") (fun _ => .ok ⟨[], []⟩)
        "AAPL" "1Day" none "raw" (some "x") none "asc" none
      = .uncaughtValueError "boom" :=
  ⟨by decide, ⟨rfl, by decide, rfl⟩,
    get_stock_bars_malformed_timestamp_uncaught
      (fun _ => .error "boom") (fun _ => .ok ⟨[], []⟩)
      "AAPL" "1Day" none "raw" (some "x") none "asc" none
      ⟨1, .Day⟩ none "x" "boom" (by decide) (Or.inl ⟨rfl, by decide, rfl⟩)⟩

/-- C5: when splitting, stripping and filtering the raw symbols yields no
symbols (empty, all-whitespace or comma-only input), a call whose other
inputs go through returns the empty mapping with zero keys, not an error. -/
theorem get_stock_bars_empty_symbols_ok
    (isoParse : String → Except String Nat)
    (provider : StockBarsQuery → Except String DataFrame)
    (symbols timeframe : String) (limit : Option Int) (adjustment : String)
    (start endP : Option String) (sort : String) (feed : Option String)
    (tf : TimeFrame) (sd ed : Option Nat) (df : DataFrame)
    (hsyms : symbolList symbols = [])
    (htf : parse_timeframe timeframe = .ok tf)
    (hs : parseOptionalTimestamp isoParse start = .ok sd)
    (he : parseOptionalTimestamp isoParse endP = .ok ed)
    (hprov : provider ⟨[], tf, sd, ed, limit, adjustment, sort, feed⟩ = .ok df) :
    get_stock_bars isoParse provider symbols timeframe limit adjustment start endP sort feed
      = .ok [] := by
  have h := get_stock_bars_ok_eq isoParse provider symbols timeframe limit adjustment
    start endP sort feed tf sd ed df htf hs he (by rw [hsyms]; exact hprov)
  rw [h, hsyms, reshape_eq_foldl]
  rfl

/-- C5 witness: a comma-and-whitespace symbols string yields the empty
mapping. -/
theorem get_stock_bars_empty_symbols_ok_witness :
    symbolList " , ," = []
    ∧ parse_timeframe "1Day" = .ok ⟨1, .Day⟩
    ∧ get_stock_bars (fun _ => .error "e") (fun _ => .ok ⟨["timestamp"], []⟩)
        " , ," "1Day" (some 1000) "raw" none none "asc" none = .ok [] :=
  ⟨by decide, by decide,
    get_stock_bars_empty_symbols_ok (fun _ => .error "e") (fun _ => .ok ⟨["timestamp"], []⟩)
      " , ," "1Day" (some 1000) "raw" none none "asc" none
      ⟨1, .Day⟩ none none ⟨["timestamp"], []⟩ (by decide) (by decide) rfl rfl rfl⟩

/-- C6 (counterexample): the claim cites "5Days" as a string on which
timeframe parsing fails; in fact the unanchored match reads its prefix "5Day"
and parsing succeeds with Interval(5, Day), so the call does not fail with
BadRequest (here it completes normally). -/
theorem get_stock_bars_5days_counterexample :
    parse_timeframe "5Days" = .ok ⟨5, .Day⟩
    ∧ get_stock_bars (fun s => .error s) (fun _ => .ok ⟨["timestamp"], []⟩)
        "AAPL" "5Days" (some 1000) "raw" none none "asc" (some "sip")
        = .ok [("AAPL", [])]
    ∧ (get_stock_bars (fun s => .error s) (fun _ => .ok ⟨["timestamp"], []⟩)
        "AAPL" "5Days" (some 1000) "raw" none none "asc" (some "sip")).isBadRequest
        = false := by
  refine ⟨by decide, by decide, by decide⟩

/-- C6 (amended): for every raw interval string on which timeframe parsing
does fail (for example "Daily5"), the handler fails with BadRequest
(status 400) whose detail carries the original malformed string, and the
provider is observably never invoked: the outcome is identical for any two
providers. -/
theorem get_stock_bars_parse_failure_bad_request
    (isoParse : String → Except String Nat)
    (provider provider2 : StockBarsQuery → Except String DataFrame)
    (symbols timeframe : String) (limit : Option Int) (adjustment : String)
    (start endP : Option String) (sort : String) (feed : Option String)
    (e : TimeframeError)
    (h : parse_timeframe timeframe = .error e) :
    get_stock_bars isoParse provider symbols timeframe limit adjustment start endP sort feed
      = .httpError 400 ("Invalid timeframe format: '" ++ timeframe
          ++ "'. Expected format like '1Min', '1Day', etc.")
    ∧ get_stock_bars isoParse provider symbols timeframe limit adjustment start endP sort feed
      = get_stock_bars isoParse provider2 symbols timeframe limit adjustment start endP sort feed := by
  obtain ⟨rfl, -⟩ := parse_error_inv h
  constructor
  · simp [get_stock_bars, h, TimeframeError.message]
  · simp [get_stock_bars, h]

/-- C6 witness: concrete instance of the amended claim at the failing string
"Daily5", with two observably different providers. -/
theorem get_stock_bars_parse_failure_bad_request_witness :
    parse_timeframe "Daily5" = .error (.invalidFormat "Daily5")
    ∧ (get_stock_bars (fun _ => .error "e") (fun _ => .ok ⟨[], []⟩)
        "AAPL" "Daily5" none "raw" none none "asc" none
        = .httpError 400 ("Invalid timeframe format: '" ++ "Daily5"
            ++ "'. Expected format like '1Min', '1Day', etc.")
      ∧ get_stock_bars (fun _ => .error "e") (fun _ => .ok ⟨[], []⟩)
          "AAPL" "Daily5" none "raw" none none "asc" none
        = get_stock_bars (fun _ => .error "e") (fun _ => .error "down")
          "AAPL" "Daily5" none "raw" none none "asc" none) :=
  ⟨by decide,
    get_stock_bars_parse_failure_bad_request (fun _ => .error "e")
      (fun _ => .ok ⟨[], []⟩) (fun _ => .error "down")
      "AAPL" "Daily5" none "raw" none none "asc" none
      (.invalidFormat "Daily5") (by decide)⟩

/-- C1: on every call that reaches the response-reshaping step (timeframe and
timestamps parsed, provider responded), every symbol parsed from the raw
symbols string is a key of the returned mapping — a key of the output exactly
when it is a parsed symbol — and each such symbol is bound to the rows the
frame holds for it, hence to an empty sequence when the provider returned no
rows for it. -/
theorem get_stock_bars_every_symbol_keyed
    (isoParse : String → Except String Nat)
    (provider : StockBarsQuery → Except String DataFrame)
    (symbols timeframe : String) (limit : Option Int) (adjustment : String)
    (start endP : Option String) (sort : String) (feed : Option String)
    (tf : TimeFrame) (sd ed : Option Nat) (df : DataFrame) (sym k : String)
    (htf : parse_timeframe timeframe = .ok tf)
    (hs : parseOptionalTimestamp isoParse start = .ok sd)
    (he : parseOptionalTimestamp isoParse endP = .ok ed)
    (hprov : provider ⟨symbolList symbols, tf, sd, ed, limit, adjustment, sort, feed⟩ = .ok df)
    (hsym : sym ∈ symbolList symbols) :
    get_stock_bars isoParse provider symbols timeframe limit adjustment start endP sort feed
      = .ok (reshape (symbolList symbols) df)
    ∧ (k ∈ dictKeys (reshape (symbolList symbols) df) ↔ k ∈ symbolList symbols)
    ∧ dictGet (reshape (symbolList symbols) df) sym = some (df.rowsFor sym)
    ∧ (df.rowsFor sym = [] → dictGet (reshape (symbolList symbols) df) sym = some []) := by
  refine ⟨get_stock_bars_ok_eq isoParse provider symbols timeframe limit adjustment
      start endP sort feed tf sd ed df htf hs he hprov,
    mem_dictKeys_reshape _ _ _, ?_, ?_⟩
  · rw [dictGet_reshape, if_pos hsym]
  · intro h0
    rw [dictGet_reshape, if_pos hsym, h0]

/-- C1 witness: symbols "AAPL,TSLA" against a provider frame holding one
AAPL row and no TSLA row; TSLA is still a key, bound to the empty sequence,
and "MSFT" is not a key. -/
theorem get_stock_bars_every_symbol_keyed_witness :
    parse_timeframe "15Min" = .ok ⟨15, .Minute⟩
    ∧ "TSLA" ∈ symbolList "AAPL,TSLA"
    ∧ (get_stock_bars (fun _ => .error "e")
          (fun _ => .ok ⟨["symbol", "timestamp"], [⟨"AAPL", 1⟩]⟩)
          "AAPL,TSLA" "15Min" (some 1000) "raw" none none "asc" (some "sip")
        = .ok (reshape (symbolList "AAPL,TSLA") ⟨["symbol", "timestamp"], [⟨"AAPL", 1⟩]⟩)
      ∧ ("MSFT" ∈ dictKeys (reshape (symbolList "AAPL,TSLA")
            ⟨["symbol", "timestamp"], [⟨"AAPL", 1⟩]⟩)
          ↔ "MSFT" ∈ symbolList "AAPL,TSLA")
      ∧ dictGet (reshape (symbolList "AAPL,TSLA") ⟨["symbol", "timestamp"], [⟨"AAPL", 1⟩]⟩)
          "TSLA"
        = some ((⟨["symbol", "timestamp"], [⟨"AAPL", 1⟩]⟩ : DataFrame).rowsFor "TSLA")
      ∧ ((⟨["symbol", "timestamp"], [⟨"AAPL", 1⟩]⟩ : DataFrame).rowsFor "TSLA" = [] →
          dictGet (reshape (symbolList "AAPL,TSLA")
            ⟨["symbol", "timestamp"], [⟨"AAPL", 1⟩]⟩) "TSLA" = some [])) :=
  ⟨by decide, by decide,
    get_stock_bars_every_symbol_keyed (fun _ => .error "e")
      (fun _ => .ok ⟨["symbol", "timestamp"], [⟨"AAPL", 1⟩]⟩)
      "AAPL,TSLA" "15Min" (some 1000) "raw" none none "asc" (some "sip")
      ⟨15, .Minute⟩ none none ⟨["symbol", "timestamp"], [⟨"AAPL", 1⟩]⟩ "TSLA" "MSFT"
      (by decide) rfl rfl rfl (by decide)⟩

/-- C9: when the provider's non-empty frame carries no "symbol" index level
and two or more distinct symbols were requested, every requested symbol is
bound to the entire row set — the same rows are duplicated under every
requested symbol's key. -/
theorem get_stock_bars_no_symbol_level_duplicates
    (isoParse : String → Except String Nat)
    (provider : StockBarsQuery → Except String DataFrame)
    (symbols timeframe : String) (limit : Option Int) (adjustment : String)
    (start endP : Option String) (sort : String) (feed : Option String)
    (tf : TimeFrame) (sd ed : Option Nat) (df : DataFrame) (a b sym : String)
    (htf : parse_timeframe timeframe = .ok tf)
    (hs : parseOptionalTimestamp isoParse start = .ok sd)
    (he : parseOptionalTimestamp isoParse endP = .ok ed)
    (hprov : provider ⟨symbolList symbols, tf, sd, ed, limit, adjustment, sort, feed⟩ = .ok df)
    (hdist : a ∈ symbolList symbols ∧ b ∈ symbolList symbols ∧ a ≠ b)
    (hlev : "symbol" ∉ df.indexNames)
    (hne : df.empty = false)
    (hsym : sym ∈ symbolList symbols) :
    get_stock_bars isoParse provider symbols timeframe limit adjustment start endP sort feed
      = .ok (reshape (symbolList symbols) df)
    ∧ dictGet (reshape (symbolList symbols) df) sym = some df.rows := by
  refine ⟨get_stock_bars_ok_eq isoParse provider symbols timeframe limit adjustment
      start endP sort feed tf sd ed df htf hs he hprov, ?_⟩
  rw [dictGet_reshape, if_pos hsym, rowsFor_of_no_symbol_level sym hlev hne]

/-- C9 witness: two distinct symbols against a two-row frame without a
"symbol" index level; the TSLA key receives the whole row set. -/
theorem get_stock_bars_no_symbol_level_duplicates_witness :
    parse_timeframe "1Day" = .ok ⟨1, .Day⟩
    ∧ ("AAPL" ∈ symbolList "AAPL,TSLA" ∧ "TSLA" ∈ symbolList "AAPL,TSLA"
        ∧ "AAPL" ≠ "TSLA")
    ∧ "symbol" ∉ (⟨["timestamp"], [⟨"", 1⟩, ⟨"", 2⟩]⟩ : DataFrame).indexNames
    ∧ (⟨["timestamp"], [⟨"", 1⟩, ⟨"", 2⟩]⟩ : DataFrame).empty = false
    ∧ "TSLA" ∈ symbolList "AAPL,TSLA"
    ∧ (get_stock_bars (fun _ => .error "e")
          (fun _ => .ok ⟨["timestamp"], [⟨"", 1⟩, ⟨"", 2⟩]⟩)
          "AAPL,TSLA" "1Day" none "raw" none none "asc" none
        = .ok (reshape (symbolList "AAPL,TSLA") ⟨["timestamp"], [⟨"", 1⟩, ⟨"", 2⟩]⟩)
      ∧ dictGet (reshape (symbolList "AAPL,TSLA") ⟨["timestamp"], [⟨"", 1⟩, ⟨"", 2⟩]⟩)
          "TSLA" = some [⟨"", 1⟩, ⟨"", 2⟩]) :=
  ⟨by decide, by decide, by decide, by decide, by decide,
    get_stock_bars_no_symbol_level_duplicates (fun _ => .error "e")
      (fun _ => .ok ⟨["timestamp"], [⟨"", 1⟩, ⟨"", 2⟩]⟩)
      "AAPL,TSLA" "1Day" none "raw" none none "asc" none
      ⟨1, .Day⟩ none none ⟨["timestamp"], [⟨"", 1⟩, ⟨"", 2⟩]⟩ "AAPL" "TSLA" "TSLA"
      (by decide) rfl rfl rfl (by decide) (by decide) (by decide) (by decide)⟩

/-- C10: on every successful call, the key list of the output has no
duplicates and a string is a key exactly when it is one of the parsed
symbols (so duplicate requests collapse to one key and unrequested symbols
never become keys); moreover every row appearing under a key comes from the
provider's frame and, when the frame has a "symbol" index level, is tagged
with exactly that key (so rows tagged with unrequested symbols never appear
anywhere in the output). -/
theorem get_stock_bars_key_set_exact
    (isoParse : String → Except String Nat)
    (provider : StockBarsQuery → Except String DataFrame)
    (symbols timeframe : String) (limit : Option Int) (adjustment : String)
    (start endP : Option String) (sort : String) (feed : Option String)
    (tf : TimeFrame) (sd ed : Option Nat) (df : DataFrame)
    (k k2 : String) (l : List BarRow) (r : BarRow)
    (htf : parse_timeframe timeframe = .ok tf)
    (hs : parseOptionalTimestamp isoParse start = .ok sd)
    (he : parseOptionalTimestamp isoParse endP = .ok ed)
    (hprov : provider ⟨symbolList symbols, tf, sd, ed, limit, adjustment, sort, feed⟩ = .ok df)
    (hget : dictGet (reshape (symbolList symbols) df) k = some l)
    (hr : r ∈ l) :
    get_stock_bars isoParse provider symbols timeframe limit adjustment start endP sort feed
      = .ok (reshape (symbolList symbols) df)
    ∧ (dictKeys (reshape (symbolList symbols) df)).Nodup
    ∧ (k2 ∈ dictKeys (reshape (symbolList symbols) df) ↔ k2 ∈ symbolList symbols)
    ∧ k ∈ symbolList symbols
    ∧ r ∈ df.rows
    ∧ ("symbol" ∈ df.indexNames → r.symbol = k) := by
  rw [dictGet_reshape] at hget
  by_cases hk : k ∈ symbolList symbols
  · rw [if_pos hk] at hget
    have hl : l = df.rowsFor k := (Option.some.injEq _ _).mp hget.symm
    subst hl
    exact ⟨get_stock_bars_ok_eq isoParse provider symbols timeframe limit adjustment
        start endP sort feed tf sd ed df htf hs he hprov,
      nodup_dictKeys_reshape _ _, mem_dictKeys_reshape _ _ _, hk,
      mem_rows_of_mem_rowsFor hr, fun hlev => tag_of_mem_rowsFor hr hlev⟩
  · rw [if_neg hk] at hget
    exact absurd hget (by simp)

/-- C10 witness: the frame holds an AAPL row and an MSFT row; MSFT was not
requested, and the row found under the AAPL key is the frame's AAPL-tagged
row. -/
theorem get_stock_bars_key_set_exact_witness :
    parse_timeframe "1Day" = .ok ⟨1, .Day⟩
    ∧ dictGet (reshape (symbolList "AAPL,AAPL,TSLA")
        ⟨["symbol", "timestamp"], [⟨"AAPL", 1⟩, ⟨"MSFT", 2⟩]⟩) "AAPL"
      = some [⟨"AAPL", 1⟩]
    ∧ (⟨"AAPL", 1⟩ : BarRow) ∈ ([⟨"AAPL", 1⟩] : List BarRow)
    ∧ (get_stock_bars (fun _ => .error "e")
          (fun _ => .ok ⟨["symbol", "timestamp"], [⟨"AAPL", 1⟩, ⟨"MSFT", 2⟩]⟩)
          "AAPL,AAPL,TSLA" "1Day" none "raw" none none "asc" none
        = .ok (reshape (symbolList "AAPL,AAPL,TSLA")
            ⟨["symbol", "timestamp"], [⟨"AAPL", 1⟩, ⟨"MSFT", 2⟩]⟩)
      ∧ (dictKeys (reshape (symbolList "AAPL,AAPL,TSLA")
            ⟨["symbol", "timestamp"], [⟨"AAPL", 1⟩, ⟨"MSFT", 2⟩]⟩)).Nodup
      ∧ ("MSFT" ∈ dictKeys (reshape (symbolList "AAPL,AAPL,TSLA")
            ⟨["symbol", "timestamp"], [⟨"AAPL", 1⟩, ⟨"MSFT", 2⟩]⟩)
          ↔ "MSFT" ∈ symbolList "AAPL,AAPL,TSLA")
      ∧ "AAPL" ∈ symbolList "AAPL,AAPL,TSLA"
      ∧ (⟨"AAPL", 1⟩ : BarRow) ∈ (⟨["symbol", "timestamp"],
            [⟨"AAPL", 1⟩, ⟨"MSFT", 2⟩]⟩ : DataFrame).rows
      ∧ ("symbol" ∈ (⟨["symbol", "timestamp"],
            [⟨"AAPL", 1⟩, ⟨"MSFT", 2⟩]⟩ : DataFrame).indexNames →
          (⟨"AAPL", 1⟩ : BarRow).symbol = "AAPL")) :=
  ⟨by decide, by decide, by decide,
    get_stock_bars_key_set_exact (fun _ => .error "e")
      (fun _ => .ok ⟨["symbol", "timestamp"], [⟨"AAPL", 1⟩, ⟨"MSFT", 2⟩]⟩)
      "AAPL,AAPL,TSLA" "1Day" none "raw" none none "asc" none
      ⟨1, .Day⟩ none none ⟨["symbol", "timestamp"], [⟨"AAPL", 1⟩, ⟨"MSFT", 2⟩]⟩
      "AAPL" "MSFT" [⟨"AAPL", 1⟩] ⟨"AAPL", 1⟩
      (by decide) rfl rfl rfl (by decide) (by decide)⟩
